import Mathlib

/-!
Shallow embedding of `src/javascript_nodejs/5.multiturn-prompts-bot/dialogs/mainDialog/index.js`.

The sample is a turn-based bot built on the botbuilder dialog framework.
We embed the user profile, the per-conversation dialog position, the four
waterfall steps of the `who_are_you` flow, the single step of the
`hello_user` flow, and the `onTurn` controller as pure Lean functions over
an explicit state.  Side effects (messages sent, dialogs begun or ended,
state persistence) are recorded as an ordered trace of `Effect`s.

JavaScript truthiness on the optional profile fields is modelled
explicitly: `user.name` is truthy iff present and non-empty, `user.age` is
truthy iff present and non-zero.
-/

/-- The user profile record stored in user state.  In the source it is a
plain object that starts empty; `name` and `age` are added by the
onboarding flow.  Ages are recognized numbers; we model them as `Int`
(negative candidates are rejected by the validator before storage). -/
structure Profile where
  name : Option String
  age : Option Int
deriving Repr, DecidableEq

/-- The suspension points of the `who_are_you` waterfall: after step 1
the name text-prompt is pending, after step 2 the yes/no choice-prompt is
pending, after step 3 (yes branch) the age number-prompt is pending.
`hello_user` never suspends, so it has no pending position. -/
inductive Pending where
  | awaitName
  | awaitConfirm
  | awaitAge
deriving Repr, DecidableEq

/-- Per-conversation bot state: the stored profile and the dialog-stack
position (`none` when no flow is active). -/
structure BotState where
  profile : Profile
  active : Option Pending
deriving Repr, DecidableEq

/-- Observable collaborator calls made during a turn, in order:
messages sent, `dc.begin(id)`, `dc.end()`, `dc.cancelAll()`, and the two
end-of-turn persistence calls. -/
inductive Effect where
  | send (msg : String)
  | beginDialog (id : String)
  | endDialog
  | cancelAll
  | saveUserState
  | saveConversationState
deriving Repr, DecidableEq

/-- Inbound activity: a message (whose `text` may be absent), a
conversation-update carrying the name of `membersAdded[0]`, or any other
activity type (which takes neither branch of `onTurn`). -/
inductive Activity where
  | message (text : Option String)
  | conversationUpdate (firstMemberName : String)
  | other
deriving Repr, DecidableEq

/-- JavaScript truthiness of an optional string field: `undefined` and
`""` are falsy. -/
def truthyStr : Option String → Bool
  | none => false
  | some s => s ≠ ""

/-- JavaScript truthiness of an optional number field: `undefined` and
`0` are falsy. -/
def truthyInt : Option Int → Bool
  | none => false
  | some n => n ≠ 0

/-- Rendering of `user.name` inside a template literal: an absent field
prints as "undefined". -/
def renderName : Option String → String
  | none => "undefined"
  | some s => s

/-- Rendering of `user.age` inside a template literal. -/
def renderAge : Option Int → String
  | none => "undefined"
  | some n => toString n

/-- JavaScript `String.prototype.toLowerCase` restricted to the
characters this bot compares ("cancel", "yes", "no" are ASCII).  Written
over the character list so that terms evaluate inside the kernel. -/
def jsToLower (s : String) : String := String.mk (s.data.map Char.toLower)

/-- JavaScript `String.prototype.trim`: strip leading and trailing
whitespace. -/
def jsTrim (s : String) : String :=
  String.mk (((s.data.dropWhile Char.isWhitespace).reverse.dropWhile Char.isWhitespace).reverse)

/-- `(turnContext.activity.text || '').trim().toLowerCase()`. -/
def normalizeText (text : Option String) : String :=
  jsToLower (jsTrim (text.getD ""))

/-- The question of the `name_prompt` issued by `promptForName`. -/
def namePromptText : String := "What is your name, human?"

/-- The question of the `confirm_prompt`. -/
def confirmPromptText : String := "Do you want to give your age?"

/-- The question of the `age_prompt`. -/
def agePromptText : String := "What is your age?"

/-- The `retryPrompt` passed to the `age_prompt` by `promptForAge`. -/
def ageRetryText : String := "Sorry, please specify your age as a positive number or say cancel."

/-- The rejection message sent by the age validator. -/
def ageRejectText : String := "Your age can't be less than zero."

/-- `confirmAgePrompt`: stores the previous step's text result as
`user.name` (read-modify-write of the whole record) and returns the
choice-prompt question it then issues. -/
def confirmAgePrompt (user : Profile) (result : String) : Profile × String :=
  ({ user with name := some result }, confirmPromptText)

/-- A `ChoicePrompt` result: the underlying recognized value. -/
structure FoundChoice where
  value : String
deriving Repr, DecidableEq

/-- Outcome of the `promptForAge` step: either it issues the number
prompt (question and retry text) or it advances via `step.next` with a
sentinel result. -/
inductive AgeStepOutcome where
  | promptAge (question retry : String)
  | next (sentinel : Int)
deriving Repr, DecidableEq

/-- `promptForAge`: `if (step.result && step.result.value === 'yes')`
issue the age prompt, else `step.next(-1)`. -/
def promptForAge (result : Option FoundChoice) : AgeStepOutcome :=
  match result with
  | some r =>
      if r.value = "yes" then AgeStepOutcome.promptAge agePromptText ageRetryText
      else AgeStepOutcome.next (-1)
  | none => AgeStepOutcome.next (-1)

/-- The custom validator of the `age_prompt`: for a recognized value
below zero it sends the rejection message and does not end the prompt;
otherwise it ends the prompt with the value.  Returns the messages sent
and the completion value (if any). -/
def ageValidator (recognized : Int) : List String × Option Int :=
  if recognized < 0 then ([ageRejectText], none)
  else ([], some recognized)

/-- `captureAge`: if the step result is not the sentinel `-1`, store it
as `user.age` and confirm; otherwise report that no age was given.
Returns the updated profile and the message sent. -/
def captureAge (user : Profile) (result : Int) : Profile × String :=
  if result ≠ -1 then
    ({ user with age := some result },
      "I will remember that you are " ++ toString result ++ " years old.")
  else
    (user, "No age given.")

/-- The execution of the `captureAge` step as seen by the dialog stack:
its profile update, its message, and the unconditional `dc.end()`. -/
def captureAgeStep (user : Profile) (result : Int) : Profile × List Effect :=
  ((captureAge user result).1,
    [Effect.send (captureAge user result).2, Effect.endDialog])

/-- `displayProfile`: renders the stored profile; the branch is on the
truthiness of `user.age`. -/
def displayProfile (user : Profile) : String :=
  if truthyInt user.age then
    "Your name is " ++ renderName user.name ++ " and you are "
      ++ renderAge user.age ++ " years old."
  else
    "Your name is " ++ renderName user.name ++ " and you did not share your age."

/-- Modelled from the spec: the `ChoicePrompt` collaborator (external
framework, not in the repository) recognizes the reply against the
allowed labels {"yes","no"}, tolerant of case and surrounding
whitespace, yielding the underlying value; unrecognized input makes the
prompt re-ask its question. -/
def recognizeChoice (text : String) : Option FoundChoice :=
  let t := jsToLower (jsTrim text)
  if t = "yes" then some ⟨"yes"⟩
  else if t = "no" then some ⟨"no"⟩
  else none

/-- Decimal digits of a number candidate, as a natural number; `none`
when the list is empty or holds a non-digit. -/
def digitsToNat (cs : List Char) : Option Nat :=
  if cs ≠ [] ∧ cs.all Char.isDigit then
    some (cs.foldl (fun n c => 10 * n + (c.toNat - 48)) 0)
  else none

/-- An optionally negated decimal integer literal. -/
def parseIntList : List Char → Option Int
  | [] => none
  | c :: rest =>
      if c = '-' then (digitsToNat rest).map (fun n => -(n : Int))
      else (digitsToNat (c :: rest)).map (fun n => (n : Int))

/-- Modelled from the spec: the `NumberPrompt` collaborator (external
framework, not in the repository) recognizes a number in the reply;
non-numeric input is rejected by the collaborator itself, which re-asks
using the configured `retryPrompt`. -/
def recognizeNumber (text : String) : Option Int :=
  parseIntList (jsTrim text).data

/-- `dc.continue()`: resume the pending prompt of the active flow, if
any, with the turn's raw text.  Returns the new state and the effects of
the resumed steps.  With no active flow it does nothing. -/
def continueFlow (st : BotState) (rawText : String) : BotState × List Effect :=
  match st.active with
  | none => (st, [])
  | some Pending.awaitName =>
      let (user, q) := confirmAgePrompt st.profile rawText
      ({ profile := user, active := some Pending.awaitConfirm }, [Effect.send q])
  | some Pending.awaitConfirm =>
      match recognizeChoice rawText with
      | none => (st, [Effect.send confirmPromptText])
      | some c =>
          match promptForAge (some c) with
          | AgeStepOutcome.promptAge q _r =>
              ({ st with active := some Pending.awaitAge }, [Effect.send q])
          | AgeStepOutcome.next s =>
              let (user, effs) := captureAgeStep st.profile s
              ({ profile := user, active := none }, effs)
  | some Pending.awaitAge =>
      match recognizeNumber rawText with
      | none => (st, [Effect.send ageRetryText])
      | some n =>
          match ageValidator n with
          | (msgs, none) => (st, msgs.map Effect.send)
          | (_, some v) =>
              let (user, effs) := captureAgeStep st.profile v
              ({ profile := user, active := none }, effs)

/-- `dc.begin(HELLO_USER)`: the one-step `hello_user` waterfall runs
`displayProfile` immediately and ends; the stack is left empty. -/
def beginHelloUser (st : BotState) : BotState × List Effect :=
  ({ profile := st.profile, active := none },
    [Effect.beginDialog "hello_user", Effect.send (displayProfile st.profile),
      Effect.endDialog])

/-- `dc.begin(WHO_ARE_YOU)`: the first step `promptForName` issues the
name prompt and suspends. -/
def beginWhoAreYou (st : BotState) : BotState × List Effect :=
  ({ profile := st.profile, active := some Pending.awaitName },
    [Effect.beginDialog "who_are_you", Effect.send namePromptText])

/-- The three-sentence bot description sent on a conversation update,
joined with spaces. -/
def botDescription : String :=
  "I am a bot that demonstrates the TextPrompt and NumberPrompt classes "
    ++ "to collect your name and age, then store those values in UserState for later use. "
    ++ "Say anything to continue."

/-- Whether an effect is a message send; `turnContext.responded` is true
for this turn exactly when the trace so far holds one. -/
def isSend : Effect → Bool
  | Effect.send _ => true
  | _ => false

/-- The message branch of `onTurn` before persistence: cancel check,
`dc.continue()`, and the begin decision guarded by
`!turnContext.responded`. -/
def messageTurn (st : BotState) (text : Option String) : BotState × List Effect :=
  let utterance := normalizeText text
  let (st1, effs1) :=
    if utterance = "cancel" then
      if st.active.isSome then
        ({ st with active := none },
          [Effect.cancelAll, Effect.send "Ok... canceled."])
      else
        (st, [Effect.send "Nothing to cancel."])
    else (st, [])
  let (st2, effs2) := continueFlow st1 (text.getD "")
  let responded := (effs1 ++ effs2).any isSend
  let (st3, effs3) :=
    if ¬ responded then
      if truthyStr st2.profile.name then beginHelloUser st2
      else beginWhoAreYou st2
    else (st2, [])
  (st3, effs1 ++ effs2 ++ effs3)

/-- `onTurn`: dispatch on the activity type, then unconditionally persist
the user state and then the conversation state. -/
def onTurn (st : BotState) (act : Activity) : BotState × List Effect :=
  let (st1, effs) :=
    match act with
    | Activity.message text => messageTurn st text
    | Activity.conversationUpdate firstMemberName =>
        if firstMemberName ≠ "Bot" then (st, [Effect.send botDescription])
        else (st, [])
    | Activity.other => (st, [])
  (st1, effs ++ [Effect.saveUserState, Effect.saveConversationState])

/-- The empty profile the store defaults to on first read. -/
def initialState : BotState := { profile := { name := none, age := none }, active := none }

/-- Fold `onTurn` over a list of inbound activities, accumulating the
combined effect trace. -/
def runTurns (st : BotState) (acts : List Activity) : BotState × List Effect :=
  match acts with
  | [] => (st, [])
  | a :: rest =>
      let (st1, tr1) := onTurn st a
      let (st2, tr2) := runTurns st1 rest
      (st2, tr1 ++ tr2)

/-- The messages of a trace, in order. -/
def sends (tr : List Effect) : List String :=
  tr.filterMap (fun e => match e with
    | Effect.send m => some m
    | _ => none)

/-! ### Structural lemmas about a single turn -/

theorem continueFlow_inactive (st : BotState) (raw : String) (h : st.active = none) :
    continueFlow st raw = (st, []) := by
  simp [continueFlow, h]

theorem continueFlow_responds (st : BotState) (raw : String) (p : Pending)
    (h : st.active = some p) : ((continueFlow st raw).2.any isSend) = true := by
  cases p with
  | awaitName => simp [continueFlow, h, confirmAgePrompt, isSend]
  | awaitConfirm =>
      rcases hrc : recognizeChoice raw with _ | c
      · simp [continueFlow, h, hrc, isSend]
      · by_cases hv : c.value = "yes"
        · simp [continueFlow, h, hrc, promptForAge, hv, isSend]
        · simp [continueFlow, h, hrc, promptForAge, hv, captureAgeStep, isSend]
  | awaitAge =>
      rcases hrn : recognizeNumber raw with _ | n
      · simp [continueFlow, h, hrn, isSend]
      · by_cases hneg : n < 0
        · simp [continueFlow, h, hrn, ageValidator, hneg, isSend]
        · simp [continueFlow, h, hrn, ageValidator, hneg, captureAgeStep, isSend]

theorem messageTurn_cancel_active (st : BotState) (text : Option String)
    (hc : normalizeText text = "cancel") (ha : st.active.isSome = true) :
    messageTurn st text =
      ({ profile := st.profile, active := none },
        [Effect.cancelAll, Effect.send "Ok... canceled."]) := by
  simp [messageTurn, hc, ha, continueFlow, isSend]

theorem messageTurn_cancel_inactive (st : BotState) (text : Option String)
    (hc : normalizeText text = "cancel") (ha : st.active = none) :
    messageTurn st text = (st, [Effect.send "Nothing to cancel."]) := by
  simp [messageTurn, hc, ha, continueFlow, isSend]

theorem messageTurn_resume (st : BotState) (text : Option String)
    (hc : normalizeText text ≠ "cancel") (p : Pending) (ha : st.active = some p) :
    messageTurn st text = continueFlow st (text.getD "") := by
  have hr := continueFlow_responds st (text.getD "") p ha
  rcases hcf : continueFlow st (text.getD "") with ⟨st2, effs2⟩
  rw [hcf] at hr
  simp [messageTurn, hc, hcf, hr]

theorem messageTurn_begin_hello (st : BotState) (text : Option String)
    (hc : normalizeText text ≠ "cancel") (ha : st.active = none)
    (hn : truthyStr st.profile.name = true) :
    messageTurn st text = beginHelloUser st := by
  have h0 := continueFlow_inactive st (text.getD "") ha
  simp [messageTurn, hc, h0, isSend, hn, beginHelloUser]

theorem messageTurn_begin_who (st : BotState) (text : Option String)
    (hc : normalizeText text ≠ "cancel") (ha : st.active = none)
    (hn : truthyStr st.profile.name = false) :
    messageTurn st text = beginWhoAreYou st := by
  have h0 := continueFlow_inactive st (text.getD "") ha
  simp [messageTurn, hc, h0, isSend, hn, beginWhoAreYou]

theorem onTurn_message (st : BotState) (text : Option String) :
    onTurn st (Activity.message text) =
      ((messageTurn st text).1,
        (messageTurn st text).2 ++ [Effect.saveUserState, Effect.saveConversationState]) := rfl

theorem runTurns_cons (st : BotState) (a : Activity) (rest : List Activity) :
    runTurns st (a :: rest) =
      ((runTurns (onTurn st a).1 rest).1,
        (onTurn st a).2 ++ (runTurns (onTurn st a).1 rest).2) := rfl

/-! ### Trace-content lemmas -/

theorem continueFlow_no_begin (st : BotState) (raw : String) (id : String) :
    Effect.beginDialog id ∉ (continueFlow st raw).2 := by
  rcases ha : st.active with _ | p
  · simp [continueFlow, ha]
  · cases p with
    | awaitName => simp [continueFlow, ha, confirmAgePrompt]
    | awaitConfirm =>
        rcases hrc : recognizeChoice raw with _ | c
        · simp [continueFlow, ha, hrc]
        · by_cases hv : c.value = "yes"
          · simp [continueFlow, ha, hrc, promptForAge, hv]
          · simp [continueFlow, ha, hrc, promptForAge, hv, captureAgeStep]
    | awaitAge =>
        rcases hrn : recognizeNumber raw with _ | n
        · simp [continueFlow, ha, hrn]
        · by_cases hneg : n < 0
          · simp [continueFlow, ha, hrn, ageValidator, hneg]
          · simp [continueFlow, ha, hrn, ageValidator, hneg, captureAgeStep]

theorem continueFlow_no_save (st : BotState) (raw : String) :
    Effect.saveUserState ∉ (continueFlow st raw).2 ∧
    Effect.saveConversationState ∉ (continueFlow st raw).2 := by
  rcases ha : st.active with _ | p
  · simp [continueFlow, ha]
  · cases p with
    | awaitName => simp [continueFlow, ha, confirmAgePrompt]
    | awaitConfirm =>
        rcases hrc : recognizeChoice raw with _ | c
        · simp [continueFlow, ha, hrc]
        · by_cases hv : c.value = "yes"
          · simp [continueFlow, ha, hrc, promptForAge, hv]
          · simp [continueFlow, ha, hrc, promptForAge, hv, captureAgeStep]
    | awaitAge =>
        rcases hrn : recognizeNumber raw with _ | n
        · simp [continueFlow, ha, hrn]
        · by_cases hneg : n < 0
          · simp [continueFlow, ha, hrn, ageValidator, hneg]
          · simp [continueFlow, ha, hrn, ageValidator, hneg, captureAgeStep]

theorem messageTurn_no_save (st : BotState) (text : Option String) :
    Effect.saveUserState ∉ (messageTurn st text).2 ∧
    Effect.saveConversationState ∉ (messageTurn st text).2 := by
  by_cases hc : normalizeText text = "cancel"
  · rcases ha : st.active with _ | p
    · rw [messageTurn_cancel_inactive st text hc ha]
      simp
    · rw [messageTurn_cancel_active st text hc (by simp [ha])]
      simp
  · rcases ha : st.active with _ | p
    · by_cases hn : truthyStr st.profile.name = true
      · rw [messageTurn_begin_hello st text hc ha hn]
        simp [beginHelloUser]
      · rw [messageTurn_begin_who st text hc ha (by simpa using hn)]
        simp [beginWhoAreYou]
    · rw [messageTurn_resume st text hc p ha]
      exact continueFlow_no_save st (text.getD "")

/-! ### Reachability invariant -/

/-- The inductive invariant of the turn system: an age is stored only
when a name is stored; while the confirm or age prompt is pending the
name has already been written; and a truthy (non-empty) stored name
rules out a pending name prompt, since `who_are_you` is only begun when
the name is falsy. -/
def SysInv (st : BotState) : Prop :=
  (st.profile.age.isSome = true → st.profile.name.isSome = true) ∧
  (st.active = some Pending.awaitConfirm → st.profile.name.isSome = true) ∧
  (st.active = some Pending.awaitAge → st.profile.name.isSome = true) ∧
  (truthyStr st.profile.name = true → st.active ≠ some Pending.awaitName)

theorem inv_initialState : SysInv initialState := by
  refine ⟨?_, ?_, ?_, ?_⟩ <;> simp [initialState, truthyStr]

theorem continueFlow_inv (st : BotState) (raw : String) (h : SysInv st) :
    SysInv (continueFlow st raw).1 := by
  obtain ⟨h1, h2, h3, h4⟩ := h
  rcases ha : st.active with _ | p
  · rw [continueFlow_inactive st raw ha]
    exact ⟨h1, h2, h3, h4⟩
  · cases p with
    | awaitName =>
        refine ⟨?_, ?_, ?_, ?_⟩ <;>
          simp [continueFlow, ha, confirmAgePrompt]
    | awaitConfirm =>
        rcases hrc : recognizeChoice raw with _ | c
        · rw [show (continueFlow st raw).1 = st by simp [continueFlow, ha, hrc]]
          exact ⟨h1, h2, h3, h4⟩
        · by_cases hv : c.value = "yes"
          · refine ⟨?_, ?_, ?_, ?_⟩ <;>
              simp [continueFlow, ha, hrc, promptForAge, hv, h1, h2 ha]
          · have hst : (continueFlow st raw).1 = { profile := st.profile, active := none } := by
              simp [continueFlow, ha, hrc, promptForAge, hv, captureAgeStep, captureAge]
            rw [hst]
            exact ⟨h1, by simp, by simp, by simp⟩
    | awaitAge =>
        rcases hrn : recognizeNumber raw with _ | n
        · rw [show (continueFlow st raw).1 = st by simp [continueFlow, ha, hrn]]
          exact ⟨h1, h2, h3, h4⟩
        · by_cases hneg : n < 0
          · rw [show (continueFlow st raw).1 = st by
              simp [continueFlow, ha, hrn, ageValidator, hneg]]
            exact ⟨h1, h2, h3, h4⟩
          · have hname := h3 ha
            have hne : n ≠ -1 := by omega
            refine ⟨?_, ?_, ?_, ?_⟩ <;>
              simp [continueFlow, ha, hrn, ageValidator, hneg, captureAgeStep,
                captureAge, hne, hname]

theorem messageTurn_inv (st : BotState) (text : Option String) (h : SysInv st) :
    SysInv (messageTurn st text).1 := by
  obtain ⟨h1, h2, h3, h4⟩ := h
  by_cases hc : normalizeText text = "cancel"
  · rcases ha : st.active with _ | p
    · rw [messageTurn_cancel_inactive st text hc ha]
      exact ⟨h1, h2, h3, h4⟩
    · rw [messageTurn_cancel_active st text hc (by simp [ha])]
      exact ⟨h1, by simp, by simp, by simp⟩
  · rcases ha : st.active with _ | p
    · by_cases hn : truthyStr st.profile.name = true
      · rw [messageTurn_begin_hello st text hc ha hn]
        exact ⟨h1, by simp [beginHelloUser], by simp [beginHelloUser],
          by simp [beginHelloUser]⟩
      · rw [messageTurn_begin_who st text hc ha (by simpa using hn)]
        refine ⟨h1, by simp [beginWhoAreYou], by simp [beginWhoAreYou], ?_⟩
        intro htr
        rw [show (beginWhoAreYou st).1.profile = st.profile from rfl] at htr
        simp [htr] at hn
    · rw [messageTurn_resume st text hc p ha]
      exact continueFlow_inv st (text.getD "") ⟨h1, h2, h3, h4⟩

theorem onTurn_inv (st : BotState) (a : Activity) (h : SysInv st) :
    SysInv (onTurn st a).1 := by
  cases a with
  | message text =>
      rw [onTurn_message]
      exact messageTurn_inv st text h
  | conversationUpdate nm =>
      by_cases hb : nm = "Bot" <;> simpa [onTurn, hb] using h
  | other => simpa [onTurn] using h

theorem runTurns_inv (acts : List Activity) (st : BotState) (h : SysInv st) :
    SysInv (runTurns st acts).1 := by
  induction acts generalizing st with
  | nil => simpa [runTurns] using h
  | cons a rest ih =>
      rw [runTurns_cons]
      exact ih (onTurn st a).1 (onTurn_inv st a h)

/-! ### Once the name is set, onboarding is never begun again -/

theorem continueFlow_name_frame (st : BotState) (raw : String)
    (h : st.active ≠ some Pending.awaitName) :
    (continueFlow st raw).1.profile.name = st.profile.name := by
  rcases ha : st.active with _ | p
  · rw [continueFlow_inactive st raw ha]
  · cases p with
    | awaitName => exact absurd ha h
    | awaitConfirm =>
        rcases hrc : recognizeChoice raw with _ | c
        · simp [continueFlow, ha, hrc]
        · by_cases hv : c.value = "yes"
          · simp [continueFlow, ha, hrc, promptForAge, hv]
          · simp [continueFlow, ha, hrc, promptForAge, hv, captureAgeStep, captureAge]
    | awaitAge =>
        rcases hrn : recognizeNumber raw with _ | n
        · simp [continueFlow, ha, hrn]
        · by_cases hneg : n < 0
          · simp [continueFlow, ha, hrn, ageValidator, hneg]
          · have hne : n ≠ -1 := by omega
            simp [continueFlow, ha, hrn, ageValidator, hneg, captureAgeStep,
              captureAge, hne]

theorem continueFlow_active_ne_awaitName (st : BotState) (raw : String) :
    (continueFlow st raw).1.active ≠ some Pending.awaitName := by
  rcases ha : st.active with _ | p
  · simp [continueFlow, ha]
  · cases p with
    | awaitName => simp [continueFlow, ha, confirmAgePrompt]
    | awaitConfirm =>
        rcases hrc : recognizeChoice raw with _ | c
        · simp [continueFlow, ha, hrc]
        · by_cases hv : c.value = "yes"
          · simp [continueFlow, ha, hrc, promptForAge, hv]
          · simp [continueFlow, ha, hrc, promptForAge, hv, captureAgeStep]
    | awaitAge =>
        rcases hrn : recognizeNumber raw with _ | n
        · simp [continueFlow, ha, hrn]
        · by_cases hneg : n < 0
          · simp [continueFlow, ha, hrn, ageValidator, hneg]
          · simp [continueFlow, ha, hrn, ageValidator, hneg, captureAgeStep]

theorem onTurn_no_who_step (st : BotState) (a : Activity)
    (h1 : truthyStr st.profile.name = true)
    (h2 : st.active ≠ some Pending.awaitName) :
    truthyStr (onTurn st a).1.profile.name = true ∧
    (onTurn st a).1.active ≠ some Pending.awaitName ∧
    Effect.beginDialog "who_are_you" ∉ (onTurn st a).2 := by
  cases a with
  | message text =>
      rw [onTurn_message]
      by_cases hc : normalizeText text = "cancel"
      · rcases ha : st.active with _ | p
        · rw [messageTurn_cancel_inactive st text hc ha]
          exact ⟨h1, by simp [ha], by simp⟩
        · rw [messageTurn_cancel_active st text hc (by simp [ha])]
          exact ⟨h1, by simp, by simp⟩
      · rcases ha : st.active with _ | p
        · rw [messageTurn_begin_hello st text hc ha h1]
          exact ⟨h1, by simp [beginHelloUser], by simp [beginHelloUser]⟩
        · rw [messageTurn_resume st text hc p ha]
          refine ⟨?_, ?_, ?_⟩
          · rw [continueFlow_name_frame st (text.getD "") h2]
            exact h1
          · exact continueFlow_active_ne_awaitName st (text.getD "")
          · have := continueFlow_no_begin st (text.getD "") "who_are_you"
            simp only [List.mem_append]
            rintro (hmem | hmem)
            · exact this hmem
            · simp at hmem
  | conversationUpdate nm =>
      by_cases hb : nm = "Bot" <;> exact ⟨by simpa [onTurn, hb] using h1,
        by simpa [onTurn, hb] using h2, by simp [onTurn, hb]⟩
  | other =>
      exact ⟨by simpa [onTurn] using h1, by simpa [onTurn] using h2,
        by simp [onTurn]⟩

theorem runTurns_no_who (more : List Activity) (st : BotState)
    (h1 : truthyStr st.profile.name = true)
    (h2 : st.active ≠ some Pending.awaitName) :
    Effect.beginDialog "who_are_you" ∉ (runTurns st more).2 := by
  induction more generalizing st with
  | nil => simp [runTurns]
  | cons a rest ih =>
      rw [runTurns_cons]
      obtain ⟨g1, g2, g3⟩ := onTurn_no_who_step st a h1 h2
      simp only [List.mem_append]
      rintro (hmem | hmem)
      · exact g3 hmem
      · exact ih (onTurn st a).1 g1 g2 hmem

/-! ### Claim theorems -/

/-- Claim C1, counterexample: the claim promises the "years old" sentence
for every present age including age = 0, but `displayProfile` branches on
JavaScript truthiness, so the reachable profile with `age = 0` (stored by
answering "0" at the age prompt) gets the "did not share" sentence. -/
theorem claim_c1_counterexample :
    (Profile.mk (some "Grace") (some 0)).age = some 0 ∧
    displayProfile (Profile.mk (some "Grace") (some 0)) =
      "Your name is Grace and you did not share your age." ∧
    displayProfile (Profile.mk (some "Grace") (some 0)) ≠
      "Your name is Grace and you are 0 years old." ∧
    (runTurns initialState [Activity.message (some "hi"), Activity.message (some "Grace"),
        Activity.message (some "yes"), Activity.message (some "0"),
        Activity.message (some "hi")]).1.profile = Profile.mk (some "Grace") (some 0) := by
  refine ⟨rfl, by decide, by decide, by decide⟩

/-- Claim C1 (amended): for every stored profile whose age is present and
non-zero the Greeting Flow sends exactly the "years old" sentence; for a
profile whose age is absent or equal to 0 it sends exactly the "did not
share" sentence; end-to-end, "hi" on the profile (Grace, 34) yields
exactly the rendered sentence and no prompts. -/
theorem claim_c1_displayProfile :
    ∀ user : Profile,
      (∀ a : Int, user.age = some a → a ≠ 0 →
          displayProfile user =
            "Your name is " ++ renderName user.name ++ " and you are "
              ++ toString a ++ " years old.") ∧
      ((user.age = none ∨ user.age = some 0) →
          displayProfile user =
            "Your name is " ++ renderName user.name ++ " and you did not share your age.") ∧
      onTurn { profile := { name := some "Grace", age := some 34 }, active := none }
          (Activity.message (some "hi")) =
        ({ profile := { name := some "Grace", age := some 34 }, active := none },
          [Effect.beginDialog "hello_user",
            Effect.send "Your name is Grace and you are 34 years old.",
            Effect.endDialog, Effect.saveUserState, Effect.saveConversationState]) := by
  intro user
  refine ⟨?_, ?_, by decide⟩
  · intro a ha hne
    simp [displayProfile, truthyInt, ha, hne, renderAge]
  · rintro (h | h) <;> simp [displayProfile, truthyInt, h]

/-- Claim C1 witness: the amended theorem evaluated on the profile
(Grace, 7). -/
theorem claim_c1_witness :
    displayProfile (Profile.mk (some "Grace") (some 7)) =
      "Your name is Grace and you are 7 years old." := by
  rw [(claim_c1_displayProfile (Profile.mk (some "Grace") (some 7))).1 7 rfl (by decide)]
  decide

/-- Claim C2: on a non-cancel message turn with no active flow, `onTurn`
begins `hello_user` exactly when the stored name is set (truthy) and
begins `who_are_you` exactly when it is not; and from any reachable
state whose name is set, no later sequence of turns ever begins
`who_are_you` again. -/
theorem claim_c2_routing :
    (∀ (st : BotState) (text : Option String),
        st.active = none → normalizeText text ≠ "cancel" →
        ((Effect.beginDialog "hello_user" ∈ (onTurn st (Activity.message text)).2 ↔
            truthyStr st.profile.name = true) ∧
          (Effect.beginDialog "who_are_you" ∈ (onTurn st (Activity.message text)).2 ↔
            truthyStr st.profile.name = false))) ∧
    (∀ acts more : List Activity,
        truthyStr (runTurns initialState acts).1.profile.name = true →
        Effect.beginDialog "who_are_you" ∉
          (runTurns (runTurns initialState acts).1 more).2) := by
  constructor
  · intro st text ha hc
    rw [onTurn_message]
    cases hn : truthyStr st.profile.name
    · rw [messageTurn_begin_who st text hc ha hn]
      constructor <;> simp [beginWhoAreYou]
    · rw [messageTurn_begin_hello st text hc ha hn]
      constructor <;> simp [beginHelloUser]
  · intro acts more h1
    have hinv := runTurns_inv acts initialState inv_initialState
    exact runTurns_no_who more (runTurns initialState acts).1 h1 (hinv.2.2.2 h1)

/-- Claim C2 witness: on the profile (Grace, 34) with no active flow,
the message "hi" begins the Greeting Flow. -/
theorem claim_c2_witness :
    Effect.beginDialog "hello_user" ∈
      (onTurn { profile := { name := some "Grace", age := some 34 }, active := none }
        (Activity.message (some "hi"))).2 :=
  ((claim_c2_routing.1 { profile := { name := some "Grace", age := some 34 }, active := none }
      (some "hi") rfl (by decide)).1).mpr (by decide)

/-- Claim C3: on a message normalizing to "cancel", if a flow is active
the whole turn is exactly cancel-all, "Ok... canceled." and the two
saves (the stack is cleared, no flow is begun, no flow step sees the
text); with no active flow it is exactly "Nothing to cancel." and the
saves. -/
theorem claim_c3_cancel :
    ∀ (st : BotState) (text : Option String), normalizeText text = "cancel" →
      (st.active.isSome = true →
          onTurn st (Activity.message text) =
            ({ profile := st.profile, active := none },
              [Effect.cancelAll, Effect.send "Ok... canceled.",
                Effect.saveUserState, Effect.saveConversationState])) ∧
      (st.active = none →
          onTurn st (Activity.message text) =
            (st, [Effect.send "Nothing to cancel.",
              Effect.saveUserState, Effect.saveConversationState])) := by
  intro st text hc
  constructor
  · intro ha
    rw [onTurn_message, messageTurn_cancel_active st text hc ha]
    rfl
  · intro ha
    rw [onTurn_message, messageTurn_cancel_inactive st text hc ha]
    rfl

/-- Claim C3 witness: "  CANCEL " while the confirm prompt is pending
clears the stack and sends exactly "Ok... canceled.". -/
theorem claim_c3_witness :
    onTurn { profile := { name := none, age := none }, active := some Pending.awaitConfirm }
        (Activity.message (some "  CANCEL ")) =
      ({ profile := { name := none, age := none }, active := none },
        [Effect.cancelAll, Effect.send "Ok... canceled.",
          Effect.saveUserState, Effect.saveConversationState]) :=
  (claim_c3_cancel _ _ (by decide)).1 rfl

/-- Claim C4: every turn's effect trace, for every activity type and
every branch, ends with exactly one user-state save followed by exactly
one conversation-state save, and no save occurs anywhere else. -/
theorem claim_c4_persistence :
    ∀ (st : BotState) (a : Activity),
      ∃ pre : List Effect,
        (onTurn st a).2 = pre ++ [Effect.saveUserState, Effect.saveConversationState] ∧
        Effect.saveUserState ∉ pre ∧ Effect.saveConversationState ∉ pre := by
  intro st a
  cases a with
  | message text =>
      exact ⟨(messageTurn st text).2, by rw [onTurn_message],
        (messageTurn_no_save st text).1, (messageTurn_no_save st text).2⟩
  | conversationUpdate nm =>
      by_cases hb : nm = "Bot"
      · exact ⟨[], by simp [onTurn, hb], by simp, by simp⟩
      · exact ⟨[Effect.send botDescription], by simp [onTurn, hb], by simp, by simp⟩
  | other => exact ⟨[], by simp [onTurn], by simp, by simp⟩

/-- Claim C5: the age-choice step issues the number prompt (with its
retry text) exactly for a choice result whose underlying value is the
string "yes", case-sensitively; any other value, a differently cased
"Yes", or an absent result advances immediately with the sentinel -1. -/
theorem claim_c5_promptForAge :
    (∀ r : FoundChoice, r.value = "yes" →
        promptForAge (some r) =
          AgeStepOutcome.promptAge "What is your age?"
            "Sorry, please specify your age as a positive number or say cancel.") ∧
    (∀ r : FoundChoice, r.value ≠ "yes" →
        promptForAge (some r) = AgeStepOutcome.next (-1)) ∧
    promptForAge none = AgeStepOutcome.next (-1) ∧
    promptForAge (some ⟨"Yes"⟩) = AgeStepOutcome.next (-1) := by
  refine ⟨?_, ?_, rfl, by decide⟩
  · intro r hv
    simp [promptForAge, hv, agePromptText, ageRetryText]
  · intro r hv
    simp [promptForAge, hv]

/-- Claim C5 witness: the theorem evaluated at the two recognized
choices. -/
theorem claim_c5_witness :
    promptForAge (some ⟨"yes"⟩) =
      AgeStepOutcome.promptAge "What is your age?"
        "Sorry, please specify your age as a positive number or say cancel." :=
  claim_c5_promptForAge.1 ⟨"yes"⟩ rfl

/-- Claim C6: the age validator rejects a recognized value iff it is
negative, sending exactly the one rejection message and not completing
the prompt; non-negative values complete with the value.  Concretely,
with the age prompt pending, "-5" yields exactly one rejection message
and leaves the prompt pending, after which "7" is accepted. -/
theorem claim_c6_ageValidator :
    (∀ n : Int, n < 0 →
        ageValidator n = (["Your age can't be less than zero."], none)) ∧
    (∀ n : Int, 0 ≤ n → ageValidator n = ([], some n)) ∧
    onTurn { profile := { name := some "Ada", age := none }, active := some Pending.awaitAge }
        (Activity.message (some "-5")) =
      ({ profile := { name := some "Ada", age := none }, active := some Pending.awaitAge },
        [Effect.send "Your age can't be less than zero.",
          Effect.saveUserState, Effect.saveConversationState]) ∧
    onTurn { profile := { name := some "Ada", age := none }, active := some Pending.awaitAge }
        (Activity.message (some "7")) =
      ({ profile := { name := some "Ada", age := some 7 }, active := none },
        [Effect.send "I will remember that you are 7 years old.", Effect.endDialog,
          Effect.saveUserState, Effect.saveConversationState]) := by
  refine ⟨?_, ?_, by decide, by decide⟩
  · intro n h
    simp [ageValidator, h, ageRejectText]
  · intro n h
    have hnl : ¬ n < 0 := not_lt.mpr h
    simp [ageValidator, hnl]

/-- Claim C6 witness: the validator evaluated at -5 and 7. -/
theorem claim_c6_witness :
    ageValidator (-5) = (["Your age can't be less than zero."], none) ∧
    ageValidator 7 = ([], some 7) :=
  ⟨claim_c6_ageValidator.1 (-5) (by decide), claim_c6_ageValidator.2.1 7 (by decide)⟩

/-- Claim C7: `captureAge` with a non-sentinel result writes the age
into the profile and sends exactly the confirmation sentence; with the
sentinel -1 it sends exactly "No age given." and leaves the profile
unwritten; both branches end the flow. -/
theorem claim_c7_captureAge :
    ∀ (user : Profile) (result : Int),
      (result ≠ -1 →
          captureAgeStep user result =
            ({ user with age := some result },
              [Effect.send ("I will remember that you are " ++ toString result
                ++ " years old."), Effect.endDialog])) ∧
      (result = -1 →
          captureAgeStep user result =
            (user, [Effect.send "No age given.", Effect.endDialog])) := by
  intro user result
  constructor <;> intro h <;> simp [captureAgeStep, captureAge, h]

/-- Claim C7 witness: the theorem evaluated at result 7 and at the
sentinel. -/
theorem claim_c7_witness :
    captureAgeStep (Profile.mk (some "Ada") none) 7 =
      (Profile.mk (some "Ada") (some 7),
        [Effect.send "I will remember that you are 7 years old.", Effect.endDialog]) ∧
    captureAgeStep (Profile.mk (some "Ada") none) (-1) =
      (Profile.mk (some "Ada") none,
        [Effect.send "No age given.", Effect.endDialog]) := by
  constructor
  · rw [(claim_c7_captureAge (Profile.mk (some "Ada") none) 7).1 (by decide)]
    decide
  · rw [(claim_c7_captureAge (Profile.mk (some "Ada") none) (-1)).2 rfl]

/-- Claim C8: in every state reachable from the empty profile by any
sequence of turns, a present age implies a present name. -/
theorem claim_c8_age_implies_name :
    ∀ acts : List Activity,
      (runTurns initialState acts).1.profile.age.isSome = true →
      (runTurns initialState acts).1.profile.name.isSome = true := by
  intro acts
  exact (runTurns_inv acts initialState inv_initialState).1

/-- Claim C8 witness: the invariant evaluated after the onboarding run
"hi", "Grace", "yes", "34", whose final profile has an age. -/
theorem claim_c8_witness :
    (runTurns initialState [Activity.message (some "hi"), Activity.message (some "Grace"),
      Activity.message (some "yes"),
      Activity.message (some "34")]).1.profile.name.isSome = true :=
  claim_c8_age_implies_name
    [Activity.message (some "hi"), Activity.message (some "Grace"),
      Activity.message (some "yes"), Activity.message (some "34")] (by decide)

/-- Claim C9: on a profile with a set name and no active flow, a
non-cancel message runs the Greeting Flow, which sends exactly the
rendered sentence and performs no profile write; running it twice in
succession sends the same sentence both times and leaves the profile
unchanged after each run. -/
theorem claim_c9_greeting_idempotent :
    ∀ (st : BotState) (text : Option String),
      st.active = none → normalizeText text ≠ "cancel" →
      truthyStr st.profile.name = true →
      (onTurn st (Activity.message text)).1.profile = st.profile ∧
      (onTurn (onTurn st (Activity.message text)).1 (Activity.message text)).1.profile
        = st.profile ∧
      sends (onTurn st (Activity.message text)).2 = [displayProfile st.profile] ∧
      sends (onTurn (onTurn st (Activity.message text)).1 (Activity.message text)).2 =
        sends (onTurn st (Activity.message text)).2 := by
  intro st text ha hc hn
  have e1 : onTurn st (Activity.message text) =
      ({ profile := st.profile, active := none },
        [Effect.beginDialog "hello_user", Effect.send (displayProfile st.profile),
          Effect.endDialog, Effect.saveUserState, Effect.saveConversationState]) := by
    rw [onTurn_message, messageTurn_begin_hello st text hc ha hn]
    rfl
  have e2 : onTurn ({ profile := st.profile, active := none } : BotState)
        (Activity.message text) =
      ({ profile := st.profile, active := none },
        [Effect.beginDialog "hello_user", Effect.send (displayProfile st.profile),
          Effect.endDialog, Effect.saveUserState, Effect.saveConversationState]) := by
    rw [onTurn_message,
      messageTurn_begin_hello ({ profile := st.profile, active := none } : BotState)
        text hc rfl hn]
    rfl
  rw [e1]
  refine ⟨rfl, ?_, by simp [sends], ?_⟩
  · rw [e2]
  · rw [e2]

/-- Claim C9 witness: two "hi" turns on the profile (Grace, 34) each
send the same single sentence. -/
theorem claim_c9_witness :
    sends (onTurn { profile := { name := some "Grace", age := some 34 }, active := none }
        (Activity.message (some "hi"))).2 =
      ["Your name is Grace and you are 34 years old."] := by
  rw [(claim_c9_greeting_idempotent
    { profile := { name := some "Grace", age := some 34 }, active := none }
    (some "hi") rfl (by decide) (by decide)).2.2.1]
  decide

/-- Claim C10: a message whose text is absent is handled exactly like a
message with empty text: it normalizes to the empty string, is not
treated as cancel, and the turn proceeds to the ordinary resume (when a
flow is pending) or begin (when none is) logic. -/
theorem claim_c10_empty_text :
    ∀ st : BotState,
      onTurn st (Activity.message none) = onTurn st (Activity.message (some "")) ∧
      normalizeText none = "" ∧
      (∀ p : Pending, st.active = some p → messageTurn st none = continueFlow st "") ∧
      (st.active = none →
          messageTurn st none =
            if truthyStr st.profile.name then beginHelloUser st else beginWhoAreYou st) := by
  intro st
  refine ⟨rfl, rfl, ?_, ?_⟩
  · intro p hp
    exact messageTurn_resume st none (by decide) p hp
  · intro ha
    cases hn : truthyStr st.profile.name
    · rw [messageTurn_begin_who st none (by decide) ha hn]
      simp
    · rw [messageTurn_begin_hello st none (by decide) ha hn]
      simp

/-- Claim C10 witness: with the age prompt pending, a text-less message
resumes the flow (here: the retry prompt is re-issued and the prompt
stays pending), and on the empty state it begins onboarding. -/
theorem claim_c10_witness :
    messageTurn (BotState.mk (Profile.mk (some "Ada") none) (some Pending.awaitAge)) none =
      continueFlow (BotState.mk (Profile.mk (some "Ada") none) (some Pending.awaitAge)) "" :=
  (claim_c10_empty_text _).2.2.1 Pending.awaitAge rfl
